import Mathlib

/-!
Shallow embedding of the letter-PDF lifecycle tasks of notifications-api
(app/celery/letters_pdf_tasks.py) and proofs about them.

Conventions used throughout:
- Python dict entries become structure fields; S3 object sizes and page counts
  are natural numbers (ContentLength is non-negative).
- The Python string primitives the source uses (lower, endswith, split,
  replace) are re-implemented over the character list of a Lean String so
  that every definition evaluates inside the kernel.
- Each background task is embedded as a pure function from its inputs plus an
  explicit environment (which storage calls succeed, how many store rows match
  a reference) to a result carrying the ordered list of side effects it
  performed; ordering claims become statements about that effect trace.
- External collaborators that are not part of the translated source (the
  hashlib SHA-512 digest, the postage derivation of PostalAddress, the letter
  filename generator, the page-count-to-billable-units table) enter as
  function parameters, so every theorem quantifies over their behaviour.
-/

namespace LettersPdfTasks

/-! Python string primitives, re-implemented over character lists. -/

/-- ASCII lower-casing of one character, as Python str.lower acts on the
ASCII letters appearing in object keys. -/
def lowerChar (c : Char) : Char :=
  if 65 ≤ c.toNat ∧ c.toNat ≤ 90 then Char.ofNat (c.toNat + 32) else c

/-- Embedding of Python str.lower for the ASCII object keys used here. -/
def pyLower (s : String) : String := String.mk (s.data.map lowerChar)

/-- Embedding of Python str.endswith. -/
def pyEndsWith (s suffix : String) : Bool := List.isSuffixOf suffix.data s.data

/-- Embedding of Python str.split for a single-slash separator, as used in
item.key.split with a slash argument. -/
def pySplitSlash (s : String) : List String := (s.data.splitOn '/').map String.mk

/-- Embedding of the source expression key.lower().endswith of a pdf suffix. -/
def keyIsPdf (k : String) : Bool := pyEndsWith (pyLower k) ".pdf"

/-- Embedding of recipient_address.replace of a comma by a newline: both the
pattern and the replacement are single characters, so a character map is the
behaviour of Python str.replace here. -/
def replaceCommaByNewline (s : String) : String :=
  String.mk (s.data.map (fun c => if c = ',' then Char.ofNat 10 else c))

/-! Data model. -/

/-- Notification key types (app/models KEY_TYPE_NORMAL, KEY_TYPE_TEAM,
KEY_TYPE_TEST). -/
inductive KeyType
  | normal
  | team
  | test
deriving DecidableEq, Repr

/-- The notification statuses this module manipulates (app/models constants
NOTIFICATION_CREATED and so on). -/
inductive NotificationStatus
  | created
  | sending
  | delivered
  | pendingVirusCheck
  | validationFailed
  | virusScanFailed
  | technicalFailure
deriving DecidableEq, Repr

/-- The slice of a Notification record that the letter tasks read and write. -/
structure Notification where
  id : String
  reference : String
  status : NotificationStatus
  keyType : KeyType
  billableUnits : Nat
  postage : String
  international : Bool
  toAddr : Option String
  createdAt : String
  crown : Bool
deriving DecidableEq, Repr

/-! The batch constructor: group_letters (letters_pdf_tasks lines 203 to 232). -/

/-- One entry of the letter_pdfs list built by
get_key_and_size_of_letters_to_be_sent_to_print: the dict with Key, Size and
ServiceId fields. -/
structure LetterPdf where
  key : String
  size : Nat
  serviceId : String
deriving DecidableEq, Repr

/-- Python truthiness of the service_id variable in group_letters: it is falsy
when it is None or the empty string. -/
def serviceIdFalsy : Option String → Bool
  | none => true
  | some s => s == ""

/-- The loop-carried state of group_letters: running_filesize, list_of_files
and service_id. -/
structure GroupState where
  runningFilesize : Nat
  listOfFiles : List LetterPdf
  serviceId : Option String
deriving DecidableEq, Repr

/-- The state at entry of the loop in group_letters. -/
def initGroupState : GroupState := GroupState.mk 0 [] none

/-- The conditional assignment in the source that overwrites service_id with
the service id of the current letter exactly when service_id is falsy. -/
def nextSid (sid : Option String) (letter : LetterPdf) : Option String :=
  if serviceIdFalsy sid then some letter.serviceId else sid

/-- One iteration of the loop body of group_letters: returns the groups
yielded during this iteration together with the updated loop state. The
conditional service_id assignment appearing before the yield test is nextSid
applied to the incoming state; the one appearing after the yield reset acts
on the reset state, whose service_id is none. -/
def groupLettersStep (maxSize maxCount : Nat) (st : GroupState) (letter : LetterPdf) :
    List (List LetterPdf) × GroupState :=
  if keyIsPdf letter.key then
    if maxSize < st.runningFilesize + letter.size
        ∨ maxCount ≤ st.listOfFiles.length
        ∨ some letter.serviceId ≠ nextSid st.serviceId letter then
      ([st.listOfFiles],
        GroupState.mk (0 + letter.size) ([] ++ [letter]) (nextSid none letter))
    else
      ([],
        GroupState.mk (st.runningFilesize + letter.size) (st.listOfFiles ++ [letter])
          (nextSid (nextSid st.serviceId letter) letter))
  else ([], st)

/-- The loop of group_letters followed by the trailing yield of a non-empty
final list_of_files. -/
def groupLettersAux (maxSize maxCount : Nat) :
    GroupState → List LetterPdf → List (List LetterPdf)
  | st, [] => if st.listOfFiles.isEmpty then [] else [st.listOfFiles]
  | st, letter :: rest =>
      let p := groupLettersStep maxSize maxCount st letter
      p.1 ++ groupLettersAux maxSize maxCount p.2 rest

/-- Embedding of group_letters, with the generator rendered as the list of its
yields. maxSize and maxCount are the configuration values
MAX_LETTER_PDF_ZIP_FILESIZE and MAX_LETTER_PDF_COUNT_PER_ZIP. -/
def group_letters (maxSize maxCount : Nat) (letterPdfs : List LetterPdf) :
    List (List LetterPdf) :=
  groupLettersAux maxSize maxCount initGroupState letterPdfs

/-- Total byte size of a group of letters. -/
def groupSize (g : List LetterPdf) : Nat := (g.map LetterPdf.size).sum

/-- The per-group guarantees claimed for the batch constructor. -/
def GroupOk (maxSize maxCount : Nat) (g : List LetterPdf) : Prop :=
  (groupSize g ≤ maxSize ∨ ∃ l, g = [l] ∧ maxSize < l.size)
  ∧ g.length ≤ maxCount
  ∧ (∀ a ∈ g, ∀ b ∈ g, a.serviceId = b.serviceId)
  ∧ (∀ l ∈ g, keyIsPdf l.key = true)

/-- The invariant maintained by the loop state of group_letters. -/
structure StateInv (maxSize maxCount : Nat) (st : GroupState) : Prop where
  size_eq : st.runningFilesize = groupSize st.listOfFiles
  len_le : st.listOfFiles.length ≤ maxCount
  size_ok : groupSize st.listOfFiles ≤ maxSize
      ∨ ∃ l, st.listOfFiles = [l] ∧ maxSize < l.size
  pdf_ok : ∀ l ∈ st.listOfFiles, keyIsPdf l.key = true
  sid_mem : ∀ l ∈ st.listOfFiles, st.serviceId = some l.serviceId
  sid_ne : st.serviceId ≠ some ""
  empty_none : st.listOfFiles = [] → st.serviceId = none

/-! Archive filename construction in collate_letter_pdfs_to_be_sent
(letters_pdf_tasks lines 144 to 156). -/

/-- One character of the URL-safe base64 alphabet: indices 0 to 25 map to the
upper-case letters, 26 to 51 to the lower-case letters, 52 to 61 to the
digits, 62 to the minus sign and 63 to the underscore. -/
def b64UrlChar (n : Nat) : Char :=
  if n < 26 then Char.ofNat (65 + n)
  else if n < 52 then Char.ofNat (97 + (n - 26))
  else if n < 62 then Char.ofNat (48 + (n - 52))
  else if n = 62 then Char.ofNat 45
  else Char.ofNat 95

/-- Embedding of base64.urlsafe_b64encode over a byte list, producing the
encoded characters (61 is the padding character for a trailing remainder). -/
def urlsafeB64Encode : List Nat → List Char
  | [] => []
  | [b1] =>
      let n := b1 * 65536
      [b64UrlChar (n / 262144 % 64), b64UrlChar (n / 4096 % 64),
        Char.ofNat 61, Char.ofNat 61]
  | [b1, b2] =>
      let n := b1 * 65536 + b2 * 256
      [b64UrlChar (n / 262144 % 64), b64UrlChar (n / 4096 % 64),
        b64UrlChar (n / 64 % 64), Char.ofNat 61]
  | b1 :: b2 :: b3 :: rest =>
      let n := b1 * 65536 + b2 * 256 + b3
      b64UrlChar (n / 262144 % 64) :: b64UrlChar (n / 4096 % 64)
        :: b64UrlChar (n / 64 % 64) :: b64UrlChar (n % 64) :: urlsafeB64Encode rest

/-- Embedding of the Python format expression num:03 for a natural number:
the decimal digits, zero-padded on the left to a minimum width of three. -/
def pad3 (n : Nat) : String :=
  let s := toString n
  if s.length < 3 then String.mk (List.replicate (3 - s.length) '0') ++ s else s

/-- Embedding of the format string building dvla_filename in
collate_letter_pdfs_to_be_sent. -/
def dvlaFilenameFormat (date postage : String) (num : Nat)
    (hash serviceIdStr : String) : String :=
  "NOTIFY." ++ date ++ "." ++ postage ++ "." ++ pad3 num ++ "." ++ hash
    ++ "." ++ serviceIdStr ++ ".ZIP"

/-- The hash expression of collate_letter_pdfs_to_be_sent: URL-safe base64 of
the digest of the joined filenames, truncated to its first 20 bytes and
decoded. The SHA-512 digest itself (hashlib, an external collaborator) enters
as the function parameter sha512Digest. -/
def collateHash (sha512Digest : String → List Nat) (joined : String) : String :=
  String.mk ((urlsafeB64Encode (sha512Digest joined)).take 20)

/-- One batch emitted to the zip-and-send task: the member keys and the
upload filename. -/
structure BatchManifest where
  filenamesToZip : List String
  uploadFilename : String
deriving DecidableEq, Repr

/-- The per-postage-class loop body of collate_letter_pdfs_to_be_sent: for
each group produced by group_letters, paired with its 0-based enumeration
index, build the filename list and the dvla filename. Reading the service id
of the first group member is the subscript access letters[0], which raises
IndexError on an empty group; that access is modelled as head?, with a none
result standing for the raised IndexError. -/
def collateBatchesForPostage (sha512Digest : String → List Nat)
    (maxSize maxCount : Nat) (dateStr postageCode : String)
    (lettersToPrint : List LetterPdf) : List (Option BatchManifest) :=
  (group_letters maxSize maxCount lettersToPrint).enum.map (fun p =>
    match p.2.head? with
    | none => none
    | some first =>
        let filenames := p.2.map LetterPdf.key
        let hash := collateHash sha512Digest (String.join filenames)
        some (BatchManifest.mk filenames
          (dvlaFilenameFormat dateStr postageCode (p.1 + 1) hash first.serviceId)))

/-- The archive filename exactly as the specification words it: NOTIFY, the
print-run deadline date, the postage code, the 1-based sequence number padded
to 3 digits, the first 20 characters of the URL-safe base64 encoding of the
SHA-512 digest of the concatenation of the member keys in order, the service
id, and ZIP, all separated by dots. Written from the specification text, to
be compared with the filename the embedded code produces. -/
def specArchiveFilename (sha512Digest : String → List Nat)
    (dateStr postageCode : String) (seq : Nat) (memberKeys : List String)
    (serviceIdStr : String) : String :=
  "NOTIFY." ++ dateStr ++ "." ++ postageCode ++ "." ++ pad3 seq ++ "."
    ++ (String.mk (urlsafeB64Encode (sha512Digest (String.join memberKeys)))).take 20
    ++ "." ++ serviceIdStr ++ ".ZIP"

/-! The store update helper update_letter_pdf_status (lines 424 to 439). -/

/-- Python truthiness of an optional string argument. -/
def pyTruthy : Option String → Bool
  | none => false
  | some s => !(s == "")

/-- The update_dict built by update_letter_pdf_status: status, billable_units,
an optional postage (present exactly when an international postage was
re-derived, in which case the dict also carries international set to true)
and the optional recipient address stored into the to field. The updated_at
timestamp the source also stores is not modelled. -/
structure UpdateDict where
  status : NotificationStatus
  billableUnits : Nat
  postage : Option String
  toAddr : Option String
deriving DecidableEq, Repr

/-- Embedding of the body of update_letter_pdf_status: the construction of
update_dict. The postage derivation of PostalAddress (an external library)
enters as the parameter postageOfAddress; the INTERNATIONAL_POSTAGE_TYPES
constant of app/models enters as the list internationalPostageTypes. -/
def update_letter_pdf_status_dict (postageOfAddress : String → String)
    (internationalPostageTypes : List String)
    (status : NotificationStatus) (billableUnits : Nat)
    (recipientAddress : Option String) : UpdateDict :=
  let postage : Option String :=
    if pyTruthy recipientAddress then
      let p := postageOfAddress (replaceCommaByNewline (recipientAddress.getD ""))
      if p ∈ internationalPostageTypes then some p else none
    else none
  { status := status
    billableUnits := billableUnits
    postage := postage
    toAddr := if pyTruthy recipientAddress then recipientAddress else none }

/-- Modelled from the spec: dao_update_notifications_by_reference (the
Notification Store, outside src) applies the update fields to the matching
record; after the transaction commits, the in-memory notification reflects
the update, which is what lets the source recompute the filename from the
possibly-changed postage. Absent dict keys leave fields unchanged; a present
postage key is always accompanied by international set to true. -/
def applyUpdateDict (n : Notification) (u : UpdateDict) : Notification :=
  { n with
    status := u.status
    billableUnits := u.billableUnits
    postage := u.postage.getD n.postage
    international := if u.postage.isSome then true else n.international
    toAddr := match u.toAddr with | some a => some a | none => n.toAddr }

/-! The sanitised-letter processing pipeline (lines 273 to 384). -/

/-- The two scan error archive folders of ScanErrorType in app/letters/utils. -/
inductive ScanErrorType
  | failure
  | error
deriving DecidableEq, Repr

/-- One observable side effect of a letter task, in the order performed:
storage reads, bucket moves, deletions, store updates. -/
inductive Effect
  | getScanObject (filename : String)
  | updateByReference (reference : String) (u : UpdateDict)
  | moveScanToInvalid (filename : String) (message : Option String)
      (invalidPages : Option (List Nat)) (pageCount : Option Nat)
  | deleteScanObject (filename : String)
  | moveSanitisedToFinal (filename : String) (isTestKey : Bool)
      (createdAt : String) (uploadFileName : String)
  | updateStatusById (notificationId : String) (status : NotificationStatus)
  | moveFailedPdf (filename : String) (scanType : ScanErrorType)
deriving DecidableEq, Repr

/-- The decrypted sanitise-result payload letter_details. -/
structure LetterDetails where
  filename : String
  notificationId : String
  validationStatus : String
  message : Option String
  invalidPages : Option (List Nat)
  pageCount : Nat
  address : Option String
deriving DecidableEq, Repr

/-- Which storage-gateway calls succeed during one run; a false entry means
the call raises BotoClientError. Deletions and store updates are modelled as
succeeding (their failure goes through the same task-level handlers but is
not the subject of any claim). -/
structure StorageOutcomes where
  getScanObjectOk : Bool
  moveToInvalidOk : Bool
  moveSanitisedOk : Bool
deriving DecidableEq, Repr

/-- How one delivery of the task ends: a normal return, a re-enqueue via
self.retry, or a raised NotificationTechnicalFailureException. -/
inductive TaskResult
  | completed
  | retried
  | raisedTechnicalFailure
deriving DecidableEq, Repr

/-- Result of one run over one notification: the ordered effect trace, the
final state of the notification record, and how the run ended. -/
structure SanitiseRun where
  trace : List Effect
  notification : Notification
  outcome : TaskResult
deriving DecidableEq, Repr

/-- Result of the helper that moves an invalid letter: its effects, the final
notification, and whether it raised NotificationTechnicalFailureException. -/
structure MoveInvalidRun where
  trace : List Effect
  notification : Notification
  raisedTechnical : Bool
deriving DecidableEq, Repr

/-- Embedding of _move_invalid_letter_and_update_status (lines 363 to 384):
move the object to the invalid PDF bucket, delete the scan original, update
the store row to validation-failed with zero billable units; a
BotoClientError from the move instead updates the status to
technical-failure by id and raises NotificationTechnicalFailureException. -/
def move_invalid_letter_and_update_status (postageOfAddress : String → String)
    (internationalPostageTypes : List String) (outcomes : StorageOutcomes)
    (n : Notification) (filename : String) (message : Option String)
    (invalidPages : Option (List Nat)) (pageCount : Option Nat) : MoveInvalidRun :=
  if outcomes.moveToInvalidOk then
    let u := update_letter_pdf_status_dict postageOfAddress internationalPostageTypes
      NotificationStatus.validationFailed 0 none
    { trace := [Effect.moveScanToInvalid filename message invalidPages pageCount,
                Effect.deleteScanObject filename,
                Effect.updateByReference n.reference u]
      notification := applyUpdateDict n u
      raisedTechnical := false }
  else
    { trace := [Effect.moveScanToInvalid filename message invalidPages pageCount,
                Effect.updateStatusById n.id NotificationStatus.technicalFailure]
      notification := { n with status := NotificationStatus.technicalFailure }
      raisedTechnical := true }

/-- Embedding of process_sanitised_letter (lines 273 to 360) acting on the
notification fetched by id. External collaborators enter as parameters:
postageOfAddress and internationalPostageTypes as in
update_letter_pdf_status_dict, billableOf for
get_billable_units_for_letter_page_count (the page-count to billable-units
table of app/letters/utils, outside src) and filenameOf for
get_letter_pdf_filename (reference, crown, created_at, ignore_folder,
postage; deterministic per the spec). retriesExhausted tells whether
self.retry raises MaxRetriesExceededError on this delivery. The
NotificationTechnicalFailureException raised inside the invalid-letter
helper is not a BotoClientError, so the task-level handler that receives it
is the general except-Exception arm, which calls self.retry. -/
def process_sanitised_letter (postageOfAddress : String → String)
    (internationalPostageTypes : List String) (billableOf : Nat → Nat)
    (filenameOf : String → Bool → String → Bool → String → String)
    (outcomes : StorageOutcomes) (retriesExhausted : Bool)
    (d : LetterDetails) (n : Notification) : SanitiseRun :=
  if n.status ≠ NotificationStatus.pendingVirusCheck then
    { trace := [], notification := n, outcome := TaskResult.completed }
  else if outcomes.getScanObjectOk = false then
    { trace := [Effect.getScanObject d.filename,
                Effect.updateStatusById n.id NotificationStatus.technicalFailure]
      notification := { n with status := NotificationStatus.technicalFailure }
      outcome := TaskResult.raisedTechnicalFailure }
  else if d.validationStatus = "failed" then
    let r := move_invalid_letter_and_update_status postageOfAddress
      internationalPostageTypes outcomes n d.filename d.message d.invalidPages
      (some d.pageCount)
    if r.raisedTechnical then
      if retriesExhausted then
        { trace := Effect.getScanObject d.filename :: r.trace
            ++ [Effect.updateStatusById n.id NotificationStatus.technicalFailure]
          notification := { r.notification with status := NotificationStatus.technicalFailure }
          outcome := TaskResult.raisedTechnicalFailure }
      else
        { trace := Effect.getScanObject d.filename :: r.trace
          notification := r.notification
          outcome := TaskResult.retried }
    else
      { trace := Effect.getScanObject d.filename :: r.trace
        notification := r.notification
        outcome := TaskResult.completed }
  else
    let billableUnits := billableOf d.pageCount
    let isTestKey : Bool := n.keyType == KeyType.test
    let u := update_letter_pdf_status_dict postageOfAddress internationalPostageTypes
      (if isTestKey then NotificationStatus.delivered else NotificationStatus.created)
      billableUnits d.address
    let n1 := applyUpdateDict n u
    let uploadFileName := filenameOf n.reference n.crown n.createdAt true n1.postage
    if outcomes.moveSanitisedOk then
      { trace := [Effect.getScanObject d.filename,
                  Effect.updateByReference n.reference u,
                  Effect.moveSanitisedToFinal d.filename isTestKey n.createdAt uploadFileName,
                  Effect.deleteScanObject d.filename]
        notification := n1
        outcome := TaskResult.completed }
    else
      { trace := [Effect.getScanObject d.filename,
                  Effect.updateByReference n.reference u,
                  Effect.moveSanitisedToFinal d.filename isTestKey n.createdAt uploadFileName,
                  Effect.updateStatusById n.id NotificationStatus.technicalFailure]
        notification := { n1 with status := NotificationStatus.technicalFailure }
        outcome := TaskResult.raisedTechnicalFailure }

/-! The render-dispatch task get_pdf_for_templated_letter (lines 58 to 102). -/

/-- The max_retries value of the task decorator. -/
def maxRetries : Nat := 15

/-- How one delivery of get_pdf_for_templated_letter ends: the render payload
was dispatched to the sanitise queue, self.retry re-enqueued the task, or
retries were exhausted and the task set a store status and raised
NotificationTechnicalFailureException. -/
inductive RenderAttemptResult
  | dispatched
  | retryScheduled
  | exhausted (storeStatus : NotificationStatus) (raisedTechnicalException : Bool)
deriving DecidableEq, Repr

/-- Embedding of the task boundary of get_pdf_for_templated_letter: any
exception from the body reaches the except arm, which calls self.retry; when
self.retry raises MaxRetriesExceededError the task updates the notification
to technical-failure and raises NotificationTechnicalFailureException. The
retry bookkeeping of celery is modelled from its documented semantics:
self.retry succeeds while the current retry count is below max_retries and
raises MaxRetriesExceededError otherwise. bodyRaises tells whether the body
of this delivery raised; retries is the retry count of this delivery. -/
def get_pdf_for_templated_letter (bodyRaises : Bool) (retries : Nat) :
    RenderAttemptResult :=
  if bodyRaises then
    if retries < maxRetries then RenderAttemptResult.retryScheduled
    else RenderAttemptResult.exhausted NotificationStatus.technicalFailure true
  else RenderAttemptResult.dispatched

/-- The whole retry loop of one logical render-dispatch request: deliveries
are re-executed while self.retry re-enqueues them. Returns the final attempt
result together with the total number of attempts from the given retry
count onward. -/
def runRenderTask (bodyRaisesAt : Nat → Bool) (r : Nat) :
    RenderAttemptResult × Nat :=
  if h : bodyRaisesAt r = true ∧ r < maxRetries then
    let p := runRenderTask bodyRaisesAt (r + 1)
    (p.1, p.2 + 1)
  else (get_pdf_for_templated_letter (bodyRaisesAt r) r, 1)
termination_by maxRetries - r
decreasing_by omega

/-! The virus-scan failure callbacks (lines 387 to 421). -/

/-- How one delivery of process_virus_scan_failed or process_virus_scan_error
ends. These tasks are declared without retries, so every raise is final:
raisedReferential stands for the store lookup by reference raising because
the number of matching notifications is not one, raisedCountMismatch for the
explicit updated-count guard raising, raisedVirusScanError for the
deliberate alerting VirusScanError raised at the end of the success path. -/
inductive VirusScanOutcome
  | completed
  | raisedReferential
  | raisedCountMismatch
  | raisedVirusScanError
deriving DecidableEq, Repr

/-- Result of one virus-scan callback run: the effect trace and the ending. -/
structure VirusScanRun where
  trace : List Effect
  outcome : VirusScanOutcome
deriving DecidableEq, Repr

/-- Embedding of process_virus_scan_failed (lines 387 to 403): move the file
to the failure folder of the error archive, look the notification up by the
reference taken from the filename, update the row to virus-scan-failed with
zero billable units, check the updated count, then raise VirusScanError.
matchingCount is the number of store rows whose reference matches; the
lookup dao_get_notification_by_reference (outside src) is modelled from the
spec: exactly one notification must match the reference, more or fewer is a
hard error. The row update returns the same count, there being one store. -/
def process_virus_scan_failed (postageOfAddress : String → String)
    (internationalPostageTypes : List String)
    (filename reference : String) (matchingCount : Nat) : VirusScanRun :=
  if matchingCount ≠ 1 then
    { trace := [Effect.moveFailedPdf filename ScanErrorType.failure]
      outcome := VirusScanOutcome.raisedReferential }
  else
    let u := update_letter_pdf_status_dict postageOfAddress internationalPostageTypes
      NotificationStatus.virusScanFailed 0 none
    if matchingCount ≠ 1 then
      { trace := [Effect.moveFailedPdf filename ScanErrorType.failure,
                  Effect.updateByReference reference u]
        outcome := VirusScanOutcome.raisedCountMismatch }
    else
      { trace := [Effect.moveFailedPdf filename ScanErrorType.failure,
                  Effect.updateByReference reference u]
        outcome := VirusScanOutcome.raisedVirusScanError }

/-- Embedding of process_virus_scan_error (lines 406 to 421): identical to
process_virus_scan_failed except that the file goes to the error folder and
the row is updated to technical-failure. -/
def process_virus_scan_error (postageOfAddress : String → String)
    (internationalPostageTypes : List String)
    (filename reference : String) (matchingCount : Nat) : VirusScanRun :=
  if matchingCount ≠ 1 then
    { trace := [Effect.moveFailedPdf filename ScanErrorType.error]
      outcome := VirusScanOutcome.raisedReferential }
  else
    let u := update_letter_pdf_status_dict postageOfAddress internationalPostageTypes
      NotificationStatus.technicalFailure 0 none
    if matchingCount ≠ 1 then
      { trace := [Effect.moveFailedPdf filename ScanErrorType.error,
                  Effect.updateByReference reference u]
        outcome := VirusScanOutcome.raisedCountMismatch }
    else
      { trace := [Effect.moveFailedPdf filename ScanErrorType.error,
                  Effect.updateByReference reference u]
        outcome := VirusScanOutcome.raisedVirusScanError }

/-! The operator replay helper replay_letters_in_error (lines 442 to 481). -/

/-- One observable action of replay_letters_in_error, in order: a move of a
file from the error archive back into the scan bucket, a dispatch of the
scan-file task to the antivirus queue, or an apply_async of the
sanitise_letter task. The argument of the two dispatches is optional because
the source can pass the Python value None. -/
inductive ReplayEffect
  | moveErrorToScan (filename : String)
  | sendScanFileTask (filename : Option String)
  | applySanitiseLetter (filename : Option String)
deriving DecidableEq, Repr

/-- Embedding of the subscript expression item.key.split on a slash taken at
index 1. -/
def secondPathComponent (key : String) : String :=
  (pySplitSlash key).getD 1 ""

/-- Embedding of replay_letters_in_error: with a filename, move that file
back to the scan bucket and re-submit it; without one, do the same for every
file in the error bucket. In the loop, when antivirus is disabled, the
source passes the outer parameter filename to sanitise_letter.apply_async,
and that parameter is None in this branch. -/
def replay_letters_in_error (antivirusEnabled : Bool) (filename : Option String)
    (errorFiles : List String) : List ReplayEffect :=
  match filename with
  | some f =>
      ReplayEffect.moveErrorToScan f ::
        (if antivirusEnabled then [ReplayEffect.sendScanFileTask (some f)]
         else [ReplayEffect.applySanitiseLetter (some f)])
  | none =>
      errorFiles.flatMap (fun item =>
        let movedFileName := secondPathComponent item
        ReplayEffect.moveErrorToScan movedFileName ::
          (if antivirusEnabled then [ReplayEffect.sendScanFileTask (some movedFileName)]
           else [ReplayEffect.applySanitiseLetter none]))

/-! Theorems. Helper lemmas come first, then one theorem per claim (with its
witness or counterexample where applicable). -/

theorem nextSid_self (l : LetterPdf) : nextSid (some l.serviceId) l = some l.serviceId := by
  unfold nextSid serviceIdFalsy
  split <;> rfl

theorem groupSize_append (a b : List LetterPdf) :
    groupSize (a ++ b) = groupSize a + groupSize b := by
  simp [groupSize]

theorem stateInv_groupOk {maxSize maxCount : Nat} {st : GroupState}
    (hst : StateInv maxSize maxCount st) : GroupOk maxSize maxCount st.listOfFiles := by
  refine ⟨hst.size_ok, hst.len_le, ?_, hst.pdf_ok⟩
  intro a ha b hb
  have h1 := hst.sid_mem a ha
  have h2 := hst.sid_mem b hb
  rw [h1] at h2
  exact Option.some_inj.mp h2

theorem initGroupState_inv (maxSize maxCount : Nat) :
    StateInv maxSize maxCount initGroupState := by
  refine ⟨rfl, by simp [initGroupState], Or.inl (by simp [initGroupState, groupSize]),
    ?_, ?_, by simp [initGroupState], fun _ => rfl⟩
  · intro l hl; simp [initGroupState] at hl
  · intro l hl; simp [initGroupState] at hl

theorem groupLettersStep_inv {maxSize maxCount : Nat} (hmc : 1 ≤ maxCount)
    {st : GroupState} (hst : StateInv maxSize maxCount st)
    {letter : LetterPdf} (hl : letter.serviceId ≠ "") :
    StateInv maxSize maxCount (groupLettersStep maxSize maxCount st letter).2
    ∧ ∀ g ∈ (groupLettersStep maxSize maxCount st letter).1,
        GroupOk maxSize maxCount g := by
  by_cases hk : keyIsPdf letter.key
  case neg =>
    simp only [groupLettersStep, hk, Bool.false_eq_true, if_false]
    exact ⟨hst, by intro g hg; simp at hg⟩
  case pos =>
    by_cases hcond : maxSize < st.runningFilesize + letter.size
        ∨ maxCount ≤ st.listOfFiles.length
        ∨ some letter.serviceId ≠ nextSid st.serviceId letter
    case pos =>
      simp only [groupLettersStep, hk, if_true, if_pos hcond]
      constructor
      · refine ⟨?_, ?_, ?_, ?_, ?_, ?_, ?_⟩
        · simp [groupSize]
        · simpa using hmc
        · rcases le_or_lt letter.size maxSize with h | h
          · exact Or.inl (by simpa [groupSize] using h)
          · exact Or.inr ⟨letter, by simp, h⟩
        · intro l hl'
          simp at hl'
          subst hl'
          exact hk
        · intro l hl'
          simp at hl'
          subst hl'
          rfl
        · simp only [nextSid, serviceIdFalsy, if_pos rfl]
          intro h
          exact hl (by simpa using h)
        · intro h; simp at h
      · intro g hg
        simp at hg
        subst hg
        exact stateInv_groupOk hst
    case neg =>
      have hcond' := hcond
      push_neg at hcond'
      obtain ⟨h1, h2, h3⟩ := hcond'
      simp only [groupLettersStep, hk, if_true, if_neg hcond]
      have hsid1 : nextSid st.serviceId letter = some letter.serviceId := h3.symm
      have hsid2 : nextSid (nextSid st.serviceId letter) letter = some letter.serviceId := by
        rw [hsid1]; exact nextSid_self letter
      constructor
      · refine ⟨?_, ?_, ?_, ?_, ?_, ?_, ?_⟩
        · simp [groupSize_append, groupSize, hst.size_eq]
        · simpa using h2
        · refine Or.inl ?_
          rw [groupSize_append]
          have h4 : st.runningFilesize = groupSize st.listOfFiles := hst.size_eq
          simp only [groupSize, List.map_cons, List.map_nil, List.sum_cons,
            List.sum_nil] at h4 ⊢
          omega
        · intro l hl'
          rcases List.mem_append.mp hl' with h | h
          · exact hst.pdf_ok l h
          · simp at h; subst h; exact hk
        · intro l hl'
          rw [hsid2]
          rcases List.mem_append.mp hl' with h | h
          · have hm := hst.sid_mem l h
            rcases hsv : st.serviceId with _ | s
            · rw [hsv] at hm; exact absurd hm (by simp)
            · have hs_ne : s ≠ "" := by
                intro hs
                exact hst.sid_ne (by rw [hsv, hs])
              have hns : nextSid st.serviceId letter = some s := by
                rw [hsv]
                unfold nextSid serviceIdFalsy
                simp [hs_ne]
              rw [hns] at hsid1
              rw [hsv] at hm
              rw [← Option.some_inj.mp hsid1]
              exact hm
          · simp at h; subst h; rfl
        · rw [hsid2]
          intro h
          exact hl (by simpa using h)
        · intro h
          exact absurd h (by simp)
      · intro g hg; simp at hg

theorem groupLettersAux_ok {maxSize maxCount : Nat} (hmc : 1 ≤ maxCount)
    (letters : List LetterPdf) :
    (∀ l ∈ letters, l.serviceId ≠ "") →
    ∀ st : GroupState, StateInv maxSize maxCount st →
    ∀ g ∈ groupLettersAux maxSize maxCount st letters, GroupOk maxSize maxCount g := by
  induction letters with
  | nil =>
    intro _ st hst g hg
    simp only [groupLettersAux] at hg
    by_cases he : st.listOfFiles.isEmpty
    · rw [if_pos he] at hg
      simp at hg
    · rw [if_neg he] at hg
      simp at hg
      subst hg
      exact stateInv_groupOk hst
  | cons l ls ih =>
    intro hsid st hst g hg
    simp only [groupLettersAux] at hg
    have hstep := groupLettersStep_inv hmc hst (hsid l (by simp))
    rcases List.mem_append.mp hg with h | h
    · exact hstep.2 g h
    · exact ih (fun x hx => hsid x (by simp [hx])) _ hstep.1 g h

/-- C1: every group produced by group_letters from any input list (whose
service ids are non-empty strings, as the stringified service UUIDs are, and
with a positive configured maximum count) has total byte size at most the
configured maximum unless it is a single letter that alone exceeds it, has
at most the configured maximum number of members, contains letters of one
service only, and contains only entries whose key ends in a PDF extension. -/
theorem group_letters_groups_ok (maxSize maxCount : Nat) (hmc : 1 ≤ maxCount)
    (letters : List LetterPdf) (hsid : ∀ l ∈ letters, l.serviceId ≠ "") :
    ∀ g ∈ group_letters maxSize maxCount letters, GroupOk maxSize maxCount g :=
  groupLettersAux_ok hmc letters hsid initGroupState (initGroupState_inv maxSize maxCount)

/-- Witness for C1: the theorem applied to the worked example of the spec,
three letters of sizes 10, 10 and 5 with a cap of 20 and a member cap of 2,
at its first produced group. -/
theorem group_letters_groups_ok_witness :
    GroupOk 20 2 [LetterPdf.mk "a.pdf" 10 "svcA", LetterPdf.mk "b.pdf" 10 "svcA"] :=
  group_letters_groups_ok 20 2 (by decide)
    [LetterPdf.mk "a.pdf" 10 "svcA", LetterPdf.mk "b.pdf" 10 "svcA",
      LetterPdf.mk "c.pdf" 5 "svcA"]
    (by decide)
    [LetterPdf.mk "a.pdf" 10 "svcA", LetterPdf.mk "b.pdf" 10 "svcA"]
    (by decide)

/-- C10: evaluation of the code at the failing input. When the first
PDF-eligible letter alone exceeds the maximum zip size, group_letters yields
an EMPTY first group (the yield of list_of_files happens before the letter
is appended), so the collation loop, which reads the service id of the
first member of every group, hits an IndexError there (modelled as the none
manifest). This contradicts the docstring of group_letters, which says an
empty list is never yielded, and the claim. -/
theorem group_letters_empty_group_on_oversized_head :
    group_letters 20 500 [LetterPdf.mk "ref.pdf" 21 "svc"]
      = [[], [LetterPdf.mk "ref.pdf" 21 "svc"]]
    ∧ (collateBatchesForPostage (fun _ => [0]) 20 500 "2020-01-01" "2"
        [LetterPdf.mk "ref.pdf" 21 "svc"]).get? 0 = some none := by
  constructor
  · decide
  · decide

/-- C5: for a notification whose status is not pending-virus-check,
process_sanitised_letter returns immediately: the effect trace is empty (no
object moved or deleted, no store update), the notification is unchanged and
the task completes normally - so a second delivery of an already-processed
scan-result callback causes no additional state change. -/
theorem process_sanitised_letter_noop_when_not_pending
    (postageOfAddress : String → String) (internationalPostageTypes : List String)
    (billableOf : Nat → Nat)
    (filenameOf : String → Bool → String → Bool → String → String)
    (outcomes : StorageOutcomes) (retriesExhausted : Bool)
    (d : LetterDetails) (n : Notification)
    (h : n.status ≠ NotificationStatus.pendingVirusCheck) :
    process_sanitised_letter postageOfAddress internationalPostageTypes billableOf
        filenameOf outcomes retriesExhausted d n
      = SanitiseRun.mk [] n TaskResult.completed := by
  simp only [process_sanitised_letter, if_pos h]

/-- C2: in process_sanitised_letter, for a pending-virus-check notification
whose payload has validation_status other than failed, the trace is exactly
read, store update (delivered for a test key and created otherwise, with the
computed billable units), move out of the scan bucket, then deletion of the
original - so the update strictly precedes the move, the deletion follows
the move, and the destination filename passed to the move is recomputed from
the postage of the updated notification. -/
theorem process_sanitised_letter_success_ordering
    (postageOfAddress : String → String) (internationalPostageTypes : List String)
    (billableOf : Nat → Nat)
    (filenameOf : String → Bool → String → Bool → String → String)
    (outcomes : StorageOutcomes) (retriesExhausted : Bool)
    (d : LetterDetails) (n : Notification)
    (hstatus : n.status = NotificationStatus.pendingVirusCheck)
    (hvs : d.validationStatus ≠ "failed")
    (hget : outcomes.getScanObjectOk = true)
    (hmove : outcomes.moveSanitisedOk = true) :
    (process_sanitised_letter postageOfAddress internationalPostageTypes billableOf
        filenameOf outcomes retriesExhausted d n).trace
      = [Effect.getScanObject d.filename,
         Effect.updateByReference n.reference
           (update_letter_pdf_status_dict postageOfAddress internationalPostageTypes
             (if n.keyType == KeyType.test then NotificationStatus.delivered
              else NotificationStatus.created)
             (billableOf d.pageCount) d.address),
         Effect.moveSanitisedToFinal d.filename (n.keyType == KeyType.test) n.createdAt
           (filenameOf n.reference n.crown n.createdAt true
             (applyUpdateDict n
               (update_letter_pdf_status_dict postageOfAddress internationalPostageTypes
                 (if n.keyType == KeyType.test then NotificationStatus.delivered
                  else NotificationStatus.created)
                 (billableOf d.pageCount) d.address)).postage),
         Effect.deleteScanObject d.filename] := by
  simp only [process_sanitised_letter, hstatus, hget, hmove, if_neg hvs]
  simp



/-- C3 counterexample: at a concrete input whose invalid-archive move raises
a storage-layer error, the run of process_sanitised_letter ends in a
scheduled retry - the NotificationTechnicalFailureException raised by the
invalid-letter helper is not a BotoClientError, so the task-level
except-Exception arm catches it and calls self.retry; the claim says the
fatal exception is raised without retrying. -/
theorem move_invalid_letter_retry_cex :
    (process_sanitised_letter (fun _ => "second") [] (fun _ => 0)
        (fun _ _ _ _ _ => "f") (StorageOutcomes.mk true false true) false
        (LetterDetails.mk "NOTIFY.REF.PDF" "nid" "failed" (some "bad") (some [1]) 2 none)
        (Notification.mk "nid" "REF" NotificationStatus.pendingVirusCheck KeyType.normal
          0 "second" false none "2020-01-01" true)).outcome
      = TaskResult.retried := by
  decide

/-- C3 amended: for a pending-virus-check notification whose payload has
validation_status failed, a successful run moves the object to the
invalid-archive with the failure message, invalid pages and page count,
deletes the scan original only after the move, and sets the status to
validation-failed with zero billable units; when the move raises a
storage-layer error, the helper sets technical-failure and raises the fatal
technical-failure exception, which the task boundary converts into a retry
(or the raised fatal error once retries are exhausted), and the scan
original is never deleted. -/
theorem process_invalid_letter_behaviour
    (postageOfAddress : String → String) (internationalPostageTypes : List String)
    (billableOf : Nat → Nat)
    (filenameOf : String → Bool → String → Bool → String → String)
    (outcomes : StorageOutcomes) (retriesExhausted : Bool)
    (d : LetterDetails) (n : Notification)
    (hstatus : n.status = NotificationStatus.pendingVirusCheck)
    (hvs : d.validationStatus = "failed")
    (hget : outcomes.getScanObjectOk = true) :
    (outcomes.moveToInvalidOk = true →
      (process_sanitised_letter postageOfAddress internationalPostageTypes billableOf
          filenameOf outcomes retriesExhausted d n).trace
        = [Effect.getScanObject d.filename,
           Effect.moveScanToInvalid d.filename d.message d.invalidPages (some d.pageCount),
           Effect.deleteScanObject d.filename,
           Effect.updateByReference n.reference
             (update_letter_pdf_status_dict postageOfAddress internationalPostageTypes
               NotificationStatus.validationFailed 0 none)]
      ∧ (process_sanitised_letter postageOfAddress internationalPostageTypes billableOf
          filenameOf outcomes retriesExhausted d n).notification.status
          = NotificationStatus.validationFailed
      ∧ (process_sanitised_letter postageOfAddress internationalPostageTypes billableOf
          filenameOf outcomes retriesExhausted d n).notification.billableUnits = 0
      ∧ (process_sanitised_letter postageOfAddress internationalPostageTypes billableOf
          filenameOf outcomes retriesExhausted d n).outcome = TaskResult.completed)
    ∧ (outcomes.moveToInvalidOk = false →
      (move_invalid_letter_and_update_status postageOfAddress internationalPostageTypes
          outcomes n d.filename d.message d.invalidPages (some d.pageCount)).raisedTechnical
          = true
      ∧ (process_sanitised_letter postageOfAddress internationalPostageTypes billableOf
          filenameOf outcomes retriesExhausted d n).notification.status
          = NotificationStatus.technicalFailure
      ∧ (process_sanitised_letter postageOfAddress internationalPostageTypes billableOf
          filenameOf outcomes retriesExhausted d n).outcome
          = (if retriesExhausted then TaskResult.raisedTechnicalFailure
             else TaskResult.retried)
      ∧ Effect.deleteScanObject d.filename
          ∉ (process_sanitised_letter postageOfAddress internationalPostageTypes billableOf
              filenameOf outcomes retriesExhausted d n).trace) := by
  constructor
  · intro hmv
    simp only [process_sanitised_letter, hstatus, hget, hvs,
      move_invalid_letter_and_update_status, hmv, if_true]
    refine ⟨by simp, ?_, ?_, ?_⟩
    · simp [applyUpdateDict, update_letter_pdf_status_dict, pyTruthy]
    · simp [applyUpdateDict, update_letter_pdf_status_dict, pyTruthy]
    · simp
  · intro hmv
    refine ⟨?_, ?_, ?_, ?_⟩
    · simp [move_invalid_letter_and_update_status, hmv]
    · simp only [process_sanitised_letter, hstatus, hget, hvs,
        move_invalid_letter_and_update_status, hmv]
      cases retriesExhausted <;> simp
    · simp only [process_sanitised_letter, hstatus, hget, hvs,
        move_invalid_letter_and_update_status, hmv]
      cases retriesExhausted <;> simp
    · simp only [process_sanitised_letter, hstatus, hget, hvs,
        move_invalid_letter_and_update_status, hmv]
      cases retriesExhausted <;> simp

/-- Witness for C3 amended: the failure branch of the theorem applied at a
concrete input whose invalid-archive move fails. -/
theorem process_invalid_letter_behaviour_witness :
    (move_invalid_letter_and_update_status (fun _ => "second") [] 
        (StorageOutcomes.mk true false true)
        (Notification.mk "nid" "REF" NotificationStatus.pendingVirusCheck KeyType.normal
          0 "second" false none "2020-01-01" true)
        "NOTIFY.REF.PDF" (some "bad") (some [1]) (some 2)).raisedTechnical = true := by
  have h := process_invalid_letter_behaviour (fun _ => "second") [] (fun _ => 0)
    (fun _ _ _ _ _ => "f") (StorageOutcomes.mk true false true) false
    (LetterDetails.mk "NOTIFY.REF.PDF" "nid" "failed" (some "bad") (some [1]) 2 none)
    (Notification.mk "nid" "REF" NotificationStatus.pendingVirusCheck KeyType.normal
      0 "second" false none "2020-01-01" true)
    rfl rfl rfl
  exact (h.2 rfl).1



/-- C8: in update_letter_pdf_status with a present (non-empty) decoded
recipient address, the postage recomputed from the address is persisted,
together with the international flag set to true, exactly when it is an
international postage class; a domestic recomputation leaves both the
postage and the international flag of the notification unchanged. -/
theorem update_letter_pdf_status_international_postage
    (postageOfAddress : String → String) (internationalPostageTypes : List String)
    (status : NotificationStatus) (billableUnits : Nat) (a : String) (ha : a ≠ "")
    (n : Notification) :
    (postageOfAddress (replaceCommaByNewline a) ∈ internationalPostageTypes →
      (applyUpdateDict n (update_letter_pdf_status_dict postageOfAddress
          internationalPostageTypes status billableUnits (some a))).postage
        = postageOfAddress (replaceCommaByNewline a)
      ∧ (applyUpdateDict n (update_letter_pdf_status_dict postageOfAddress
          internationalPostageTypes status billableUnits (some a))).international = true)
    ∧ (postageOfAddress (replaceCommaByNewline a) ∉ internationalPostageTypes →
      (applyUpdateDict n (update_letter_pdf_status_dict postageOfAddress
          internationalPostageTypes status billableUnits (some a))).postage = n.postage
      ∧ (applyUpdateDict n (update_letter_pdf_status_dict postageOfAddress
          internationalPostageTypes status billableUnits (some a))).international
          = n.international) := by
  have htruthy : pyTruthy (some a) = true := by simp [pyTruthy, ha]
  constructor
  · intro hmem
    simp [update_letter_pdf_status_dict, applyUpdateDict, htruthy, hmem]
  · intro hmem
    simp [update_letter_pdf_status_dict, applyUpdateDict, htruthy, hmem]

/-- Witness for C8: the international branch of the theorem at a concrete
address whose recomputed postage is europe. -/
theorem update_letter_pdf_status_international_postage_witness :
    (applyUpdateDict
        (Notification.mk "nid" "REF" NotificationStatus.pendingVirusCheck KeyType.normal
          0 "second" false none "2020-01-01" true)
        (update_letter_pdf_status_dict (fun _ => "europe") ["europe", "rest-of-world"]
          NotificationStatus.created 3 (some "1 Rue, Paris, France"))).postage = "europe"
    ∧ (applyUpdateDict
        (Notification.mk "nid" "REF" NotificationStatus.pendingVirusCheck KeyType.normal
          0 "second" false none "2020-01-01" true)
        (update_letter_pdf_status_dict (fun _ => "europe") ["europe", "rest-of-world"]
          NotificationStatus.created 3 (some "1 Rue, Paris, France"))).international
        = true := by
  have h := update_letter_pdf_status_international_postage (fun _ => "europe")
    ["europe", "rest-of-world"] NotificationStatus.created 3 "1 Rue, Paris, France"
    (by decide)
    (Notification.mk "nid" "REF" NotificationStatus.pendingVirusCheck KeyType.normal
      0 "second" false none "2020-01-01" true)
  exact h.1 (by decide)

/-- C6: for both scan-failure callbacks, a reference matching a number of
notifications other than one makes the run end in a raised referential
error (never a silent return, and these tasks have no retry); with exactly
one match, the row is updated to virus-scan-failed (scanner rejection) or
technical-failure (scanner error) with zero billable units and the run ends
in the deliberate raised VirusScanError used for alerting. -/
theorem virus_scan_callbacks_exactly_one_reference
    (postageOfAddress : String → String) (internationalPostageTypes : List String)
    (filename reference : String) (matchingCount : Nat) :
    (matchingCount ≠ 1 →
      (process_virus_scan_failed postageOfAddress internationalPostageTypes
          filename reference matchingCount).outcome = VirusScanOutcome.raisedReferential
      ∧ (process_virus_scan_error postageOfAddress internationalPostageTypes
          filename reference matchingCount).outcome = VirusScanOutcome.raisedReferential)
    ∧ (matchingCount = 1 →
      process_virus_scan_failed postageOfAddress internationalPostageTypes
          filename reference matchingCount
        = VirusScanRun.mk
            [Effect.moveFailedPdf filename ScanErrorType.failure,
             Effect.updateByReference reference
               (update_letter_pdf_status_dict postageOfAddress internationalPostageTypes
                 NotificationStatus.virusScanFailed 0 none)]
            VirusScanOutcome.raisedVirusScanError
      ∧ process_virus_scan_error postageOfAddress internationalPostageTypes
          filename reference matchingCount
        = VirusScanRun.mk
            [Effect.moveFailedPdf filename ScanErrorType.error,
             Effect.updateByReference reference
               (update_letter_pdf_status_dict postageOfAddress internationalPostageTypes
                 NotificationStatus.technicalFailure 0 none)]
            VirusScanOutcome.raisedVirusScanError) := by
  constructor
  · intro hc
    constructor
    · simp [process_virus_scan_failed, hc]
    · simp [process_virus_scan_error, hc]
  · intro hc
    subst hc
    constructor
    · simp [process_virus_scan_failed]
    · simp [process_virus_scan_error]

/-- Witness for C6: the theorem applied at a zero-match callback and at a
single-match callback. -/
theorem virus_scan_callbacks_exactly_one_reference_witness :
    (process_virus_scan_failed (fun _ => "second") [] "NOTIFY.REF.PDF" "REF" 0).outcome
      = VirusScanOutcome.raisedReferential
    ∧ (process_virus_scan_error (fun _ => "second") [] "NOTIFY.REF.PDF" "REF" 1).outcome
      = VirusScanOutcome.raisedVirusScanError := by
  refine ⟨((virus_scan_callbacks_exactly_one_reference (fun _ => "second") []
    "NOTIFY.REF.PDF" "REF" 0).1 (by decide)).1, ?_⟩
  have h := ((virus_scan_callbacks_exactly_one_reference (fun _ => "second") []
    "NOTIFY.REF.PDF" "REF" 1).2 rfl).2
  rw [h]



theorem runRenderTask_attempts_le (b : Nat → Bool) :
    ∀ m r, maxRetries - r ≤ m → (runRenderTask b r).2 ≤ maxRetries - r + 1 := by
  intro m
  induction m with
  | zero =>
    intro r hr
    rw [runRenderTask]
    have hnot : ¬(b r = true ∧ r < maxRetries) := by
      rintro ⟨_, hlt⟩
      omega
    rw [dif_neg hnot]
    simp
  | succ k ih =>
    intro r hr
    rw [runRenderTask]
    by_cases hc : b r = true ∧ r < maxRetries
    · rw [dif_pos hc]
      have := ih (r + 1) (by omega)
      simp only
      omega
    · rw [dif_neg hc]
      omega

theorem runRenderTask_allfail (b : Nat → Bool) (hb : ∀ k, b k = true) :
    ∀ m r, maxRetries - r = m → r ≤ maxRetries →
      runRenderTask b r
        = (RenderAttemptResult.exhausted NotificationStatus.technicalFailure true,
            maxRetries + 1 - r) := by
  intro m
  induction m with
  | zero =>
    intro r hm hr
    have : r = maxRetries := by omega
    subst this
    rw [runRenderTask]
    have hnot : ¬(b maxRetries = true ∧ maxRetries < maxRetries) := by
      rintro ⟨_, hlt⟩
      omega
    rw [dif_neg hnot]
    simp [get_pdf_for_templated_letter, hb maxRetries]
  | succ k ih =>
    intro r hm hr
    rw [runRenderTask]
    have hlt : r < maxRetries := by omega
    rw [dif_pos ⟨hb r, hlt⟩]
    have hrec := ih (r + 1) (by omega) (by omega)
    rw [hrec]
    simp only [Prod.mk.injEq]
    exact ⟨trivial, by omega⟩

/-- C4: for get_pdf_for_templated_letter, a delivery whose body raises
schedules a retry while the retry count is below 15, and at 15 (retries
exhausted) the attempt both records the technical-failure store status and
raises the technical-failure exception; a whole request performs at most 16
attempts (one initial plus 15 retries), and with every attempt failing it
performs exactly 16 and ends in the status update and raised exception -
never a silent return and never a 16th retry. -/
theorem get_pdf_retry_policy (bodyRaisesAt : Nat → Bool) (r : Nat) :
    (bodyRaisesAt r = true → r < maxRetries →
      get_pdf_for_templated_letter (bodyRaisesAt r) r
        = RenderAttemptResult.retryScheduled)
    ∧ (bodyRaisesAt r = true → maxRetries ≤ r →
      get_pdf_for_templated_letter (bodyRaisesAt r) r
        = RenderAttemptResult.exhausted NotificationStatus.technicalFailure true)
    ∧ (bodyRaisesAt r = false →
      get_pdf_for_templated_letter (bodyRaisesAt r) r = RenderAttemptResult.dispatched)
    ∧ (runRenderTask bodyRaisesAt 0).2 ≤ maxRetries + 1
    ∧ ((∀ k, bodyRaisesAt k = true) →
      runRenderTask bodyRaisesAt 0
        = (RenderAttemptResult.exhausted NotificationStatus.technicalFailure true,
            maxRetries + 1)) := by
  refine ⟨?_, ?_, ?_, ?_, ?_⟩
  · intro hbr hlt
    simp [get_pdf_for_templated_letter, hbr, hlt]
  · intro hbr hge
    simp [get_pdf_for_templated_letter, hbr, Nat.not_lt.mpr hge]
  · intro hbr
    simp [get_pdf_for_templated_letter, hbr]
  · have := runRenderTask_attempts_le bodyRaisesAt maxRetries 0 (by omega)
    omega
  · intro hall
    have := runRenderTask_allfail bodyRaisesAt hall maxRetries 0 rfl (by omega)
    simpa using this

/-- Witness for C4: the theorem applied to an always-failing body at retry
count zero. -/
theorem get_pdf_retry_policy_witness :
    get_pdf_for_templated_letter true 0 = RenderAttemptResult.retryScheduled
    ∧ runRenderTask (fun _ => true) 0
        = (RenderAttemptResult.exhausted NotificationStatus.technicalFailure true, 16) :=
  ⟨(get_pdf_retry_policy (fun _ => true) 0).1 rfl (by decide),
   (get_pdf_retry_policy (fun _ => true) 0).2.2.2.2 (fun _ => rfl)⟩

/-- C9: evaluation of the code at the failing input. In the replay-all
branch with antivirus disabled, the file moved back to the scan bucket is
NOT the file re-submitted to the sanitise step: the source passes the outer
filename parameter, which is None in this branch, so sanitise_letter is
invoked with None instead of the moved file name - contradicting the claim
and the adjacent log line, which names the moved file. -/
theorem replay_all_antivirus_disabled_submits_none :
    replay_letters_in_error false none ["error/NOTIFY.REF.PDF"]
      = [ReplayEffect.moveErrorToScan "NOTIFY.REF.PDF",
         ReplayEffect.applySanitiseLetter none]
    ∧ ReplayEffect.applySanitiseLetter (some "NOTIFY.REF.PDF")
        ∉ replay_letters_in_error false none ["error/NOTIFY.REF.PDF"] := by
  constructor
  · decide
  · decide



theorem dvla_eq_specArchive (sha512Digest : String → List Nat)
    (dateStr postageCode : String) (seq : Nat) (keys : List String) (sid : String) :
    dvlaFilenameFormat dateStr postageCode seq
        (collateHash sha512Digest (String.join keys)) sid
      = specArchiveFilename sha512Digest dateStr postageCode seq keys sid := by
  unfold dvlaFilenameFormat specArchiveFilename collateHash
  rw [String.take_eq]

/-- C7: every batch manifest emitted by the per-postage collation loop
carries the upload filename prescribed by the specification: NOTIFY, the
print-run deadline date, the postage code, the 1-based sequence number of
the group within this postage class padded to 3 digits, the first 20
characters of the URL-safe base64 encoding of the SHA-512 digest of the
concatenation of the member keys in order, and the service id of the first
group member, dot-separated and ending in ZIP. -/
theorem collate_filename_matches_spec (sha512Digest : String → List Nat)
    (maxSize maxCount : Nat) (dateStr postageCode : String)
    (lettersToPrint : List LetterPdf) (i : Nat) (b : BatchManifest)
    (hb : (collateBatchesForPostage sha512Digest maxSize maxCount dateStr postageCode
        lettersToPrint).get? i = some (some b)) :
    ∃ g first, (group_letters maxSize maxCount lettersToPrint).get? i = some g
      ∧ g.head? = some first
      ∧ b.filenamesToZip = g.map LetterPdf.key
      ∧ b.uploadFilename = specArchiveFilename sha512Digest dateStr postageCode (i + 1)
          (g.map LetterPdf.key) first.serviceId := by
  unfold collateBatchesForPostage at hb
  rw [List.get?_map, List.get?_enum] at hb
  cases hg : (group_letters maxSize maxCount lettersToPrint).get? i with
  | none =>
    rw [hg] at hb
    simp at hb
  | some g =>
    rw [hg] at hb
    simp only [Option.map_some', Option.some_inj] at hb
    cases hf : g.head? with
    | none =>
      rw [hf] at hb
      simp at hb
    | some first =>
      rw [hf] at hb
      simp only [Option.some_inj] at hb
      refine ⟨g, first, rfl, hf, ?_, ?_⟩
      · rw [← hb]
      · rw [← hb]
        exact dvla_eq_specArchive sha512Digest dateStr postageCode (i + 1)
          (g.map LetterPdf.key) first.serviceId



/-- Witness for C7: the theorem applied to a one-letter collation run with a
concrete digest function. -/
theorem collate_filename_matches_spec_witness :
    ∃ g first, (group_letters 20 500 [LetterPdf.mk "a.pdf" 1 "svc"]).get? 0 = some g
      ∧ g.head? = some first
      ∧ (["a.pdf"] : List String) = g.map LetterPdf.key
      ∧ "NOTIFY.2020-01-01.2.001.AAEC.svc.ZIP"
          = specArchiveFilename (fun _ => [0, 1, 2]) "2020-01-01" "2" 1
              (g.map LetterPdf.key) first.serviceId :=
  collate_filename_matches_spec (fun _ => [0, 1, 2]) 20 500 "2020-01-01" "2"
    [LetterPdf.mk "a.pdf" 1 "svc"] 0
    (BatchManifest.mk ["a.pdf"] "NOTIFY.2020-01-01.2.001.AAEC.svc.ZIP") (by decide)



/-- Witness for C2: the theorem applied at a concrete successful scan
result. -/
theorem process_sanitised_letter_success_ordering_witness :
    (process_sanitised_letter (fun _ => "second") [] (fun _ => 1)
        (fun _ _ _ _ _ => "KEY") (StorageOutcomes.mk true true true) false
        (LetterDetails.mk "NOTIFY.REF.PDF" "nid" "passed" none none 2 (some "addr"))
        (Notification.mk "nid" "REF" NotificationStatus.pendingVirusCheck KeyType.normal
          0 "second" false none "2020-01-01" true)).trace
      = [Effect.getScanObject "NOTIFY.REF.PDF",
         Effect.updateByReference "REF"
           (UpdateDict.mk NotificationStatus.created 1 none (some "addr")),
         Effect.moveSanitisedToFinal "NOTIFY.REF.PDF" false "2020-01-01" "KEY",
         Effect.deleteScanObject "NOTIFY.REF.PDF"] := by
  rw [process_sanitised_letter_success_ordering (fun _ => "second") [] (fun _ => 1)
    (fun _ _ _ _ _ => "KEY") (StorageOutcomes.mk true true true) false
    (LetterDetails.mk "NOTIFY.REF.PDF" "nid" "passed" none none 2 (some "addr"))
    (Notification.mk "nid" "REF" NotificationStatus.pendingVirusCheck KeyType.normal
      0 "second" false none "2020-01-01" true)
    rfl (by decide) rfl rfl]
  decide

/-- Witness for C5: the theorem applied to a notification already in the
delivered state. -/
theorem process_sanitised_letter_noop_when_not_pending_witness :
    process_sanitised_letter (fun _ => "second") [] (fun _ => 1)
        (fun _ _ _ _ _ => "KEY") (StorageOutcomes.mk true true true) false
        (LetterDetails.mk "NOTIFY.REF.PDF" "nid" "passed" none none 2 (some "addr"))
        (Notification.mk "nid" "REF" NotificationStatus.delivered KeyType.normal
          0 "second" false none "2020-01-01" true)
      = SanitiseRun.mk []
          (Notification.mk "nid" "REF" NotificationStatus.delivered KeyType.normal
            0 "second" false none "2020-01-01" true)
          TaskResult.completed :=
  process_sanitised_letter_noop_when_not_pending (fun _ => "second") [] (fun _ => 1)
    (fun _ _ _ _ _ => "KEY") (StorageOutcomes.mk true true true) false
    (LetterDetails.mk "NOTIFY.REF.PDF" "nid" "passed" none none 2 (some "addr"))
    (Notification.mk "nid" "REF" NotificationStatus.delivered KeyType.normal
      0 "second" false none "2020-01-01" true)
    (by decide)

end LettersPdfTasks
